import Mathlib

/-!
Verification of the DreamCanvas mobile client's generation lifecycle
tracker (`src/mobile/src/stores/generationStore.ts`), its generation API
wrapper (`generate.ts`), and the axios API client with its token-refresh
interceptors (`api/client.ts`).

The TypeScript code is shallowly embedded: the Zustand store's state is a
record, each store action is a state transformer, and the `await`-ed HTTP
calls are passed in as explicit `Except` outcomes.  Observable side
effects (HTTP requests issued, `clearInterval`, `console.error`, promise
settlement) are reified as event lists so that ordering claims can be
stated.  JavaScript truthiness on optional string fields (`x || y`,
`if (x)`) is modelled by `jsTruthy`/`jsOr`, where both `null` (`none`)
and the empty string are falsy.
-/

namespace DreamCanvas

/-- JavaScript truthiness of a nullable string: `null` and `""` are falsy. -/
def jsTruthy : Option String → Bool
  | none => false
  | some s => !(s == "")

/-- The JavaScript `a || b` on nullable strings, as used in the status merge. -/
def jsOr (a b : Option String) : Option String :=
  if jsTruthy a then a else b

/-- `GenerationStatus` from `types/index.ts`. -/
inductive GenStatus
  | pending
  | processing
  | enhancing
  | generating
  | uploading
  | completed
  | failed
deriving DecidableEq

/-- The `Generation` record from `types/index.ts`.  Nullable string columns are
`Option String`; `duration_seconds` is inert for the tracker, modelled as
`Option Nat`. -/
structure Generation where
  id : String
  user_id : String
  original_prompt : String
  enhanced_prompt : Option String
  negative_prompt : Option String
  status : GenStatus
  provider : String
  model : String
  style : Option String
  size : String
  quality : String
  image_url : Option String
  thumbnail_url : Option String
  error_message : Option String
  error_code : Option String
  started_at : Option String
  completed_at : Option String
  created_at : String
  updated_at : String
  duration_seconds : Option Nat
deriving DecidableEq

/-- The lightweight payload returned by `generateApi.getStatus`. -/
structure StatusPayload where
  generation_id : String
  status : GenStatus
  message : Option String
  image_url : Option String
  thumbnail_url : Option String
  error : Option String
deriving DecidableEq

/-- `PromptEnhanceResponse` from `types/index.ts`. -/
structure PromptEnhanceResponse where
  original_prompt : String
  enhanced_prompt : String
  style_suggestions : Option (List String)
deriving DecidableEq

/-- The state slice of the generation store (`generationStore.ts`), excluding
the action closures.  `pollingInterval` holds the timer handle. -/
structure GenerationState where
  currentGeneration : Option Generation
  isGenerating : Bool
  generationError : Option String
  enhancedPrompt : Option PromptEnhanceResponse
  isEnhancing : Bool
  pollingInterval : Option Nat
deriving DecidableEq

/-- Initial store state (`generationStore.ts` lines 42-47). -/
def initialState : GenerationState :=
  { currentGeneration := none
    isGenerating := false
    generationError := none
    enhancedPrompt := none
    isEnhancing := false
    pollingInterval := none }

/-- Observable events of the tracker, in program order: HTTP requests issued,
store writes, timer cancellation, and the swallowed-error log. -/
inductive PollEvent
  | statusReq (id : String)
  | mergeSet
  | timerCancel
  | generatingCleared
  | byIdReq (id : String)
  | fullSet
  | failErrorSet
  | errorLogged
deriving DecidableEq

/-- `stopPolling` (`generationStore.ts` lines 127-133): `clearInterval` only
when a timer handle is present, then null the handle. -/
def stopPolling (st : GenerationState) : GenerationState × List PollEvent :=
  match st.pollingInterval with
  | some _ => ({ st with pollingInterval := none }, [PollEvent.timerCancel])
  | none => (st, [])

/-- The spread-merge of a lightweight status payload into the stored record
(`generationStore.ts` lines 80-87): `status` is overwritten, the three
optional fields use JavaScript `||` against the previous value, every other
field is carried over by the spread. -/
def mergeStatus (g : Generation) (p : StatusPayload) : Generation :=
  { g with
    status := p.status
    image_url := jsOr p.image_url g.image_url
    thumbnail_url := jsOr p.thumbnail_url g.thumbnail_url
    error_message := jsOr p.error g.error_message }

/-- `pollStatus` (`generationStore.ts` lines 73-108).  `statusResult` is the
outcome of `await generateApi.getStatus(id)`; `fullResult` the outcome of
`await generateApi.getById(id)` should it be issued.  Any thrown error is
caught by the surrounding `try`, logged and swallowed, so the function is
total and returns normally in every case. -/
def pollStatus (st : GenerationState) (id : String)
    (statusResult : Except String StatusPayload)
    (fullResult : Except String Generation) : GenerationState × List PollEvent :=
  match statusResult with
  | Except.error _ => (st, [PollEvent.statusReq id, PollEvent.errorLogged])
  | Except.ok p =>
    let st1 : GenerationState :=
      { st with currentGeneration := st.currentGeneration.map (fun g => mergeStatus g p) }
    if p.status = GenStatus.completed ∨ p.status = GenStatus.failed then
      let stopped := stopPolling st1
      let st3 : GenerationState := { stopped.1 with isGenerating := false }
      if p.status = GenStatus.completed then
        match fullResult with
        | Except.ok full =>
            ({ st3 with currentGeneration := some full },
              [PollEvent.statusReq id, PollEvent.mergeSet] ++ stopped.2 ++
                [PollEvent.generatingCleared, PollEvent.byIdReq id, PollEvent.fullSet])
        | Except.error _ =>
            (st3,
              [PollEvent.statusReq id, PollEvent.mergeSet] ++ stopped.2 ++
                [PollEvent.generatingCleared, PollEvent.byIdReq id, PollEvent.errorLogged])
      else
        if jsTruthy p.error then
          ({ st3 with generationError := p.error },
            [PollEvent.statusReq id, PollEvent.mergeSet] ++ stopped.2 ++
              [PollEvent.generatingCleared, PollEvent.failErrorSet])
        else
          (st3,
            [PollEvent.statusReq id, PollEvent.mergeSet] ++ stopped.2 ++
              [PollEvent.generatingCleared])
    else
      (st1, [PollEvent.statusReq id, PollEvent.mergeSet])

/-- `startPolling` (`generationStore.ts` lines 111-124): stop any existing
timer, install a fresh interval handle, and fire an immediate status request
(whose asynchronous response is delivered to `pollStatus` later). -/
def startPolling (st : GenerationState) (id : String) (newTimer : Nat) :
    GenerationState × List PollEvent :=
  let stopped := stopPolling st
  ({ stopped.1 with pollingInterval := some newTimer },
    stopped.2 ++ [PollEvent.statusReq id])

/-- `clearCurrentGeneration` (`generationStore.ts` lines 149-157). -/
def clearCurrentGeneration (st : GenerationState) : GenerationState × List PollEvent :=
  let stopped := stopPolling st
  ({ stopped.1 with
      currentGeneration := none
      isGenerating := false
      generationError := none
      enhancedPrompt := none },
    stopped.2)

/-- True of the requests issued by `generateApi.getById`. -/
def isFetch : PollEvent → Bool
  | PollEvent.byIdReq _ => true
  | _ => false

/-- True of the `clearInterval` event. -/
def isStop : PollEvent → Bool
  | PollEvent.timerCancel => true
  | _ => false

/-- Number of full-record fetches (`generateApi.getById` requests) in a trace. -/
def fetchCount (tr : List PollEvent) : Nat :=
  tr.countP isFetch

/-- Number of `clearInterval` events in a trace. -/
def stopCount (tr : List PollEvent) : Nat :=
  tr.countP isStop

/-- Holds of a trace in which the first timer cancellation occurs strictly
before the first full-record fetch. -/
def stopPrecedesFetch : List PollEvent → Bool
  | [] => false
  | e :: tr =>
    if isStop e then tr.any isFetch
    else if isFetch e then false
    else stopPrecedesFetch tr

/-- A poll-tick outcome that does not report a terminal status: either a
transport error, or a payload whose status is neither `completed` nor
`failed`. -/
def nonTerminalTick : Except String StatusPayload → Bool
  | Except.error _ => true
  | Except.ok p =>
      !(p.status == GenStatus.completed) && !(p.status == GenStatus.failed)

/-- The interval-driven polling loop: each element of `responses` is the
outcome of one scheduled tick's status request.  A tick fires only while
the interval handle is installed; once `pollingInterval` is null no
further tick runs (`clearInterval` semantics of `setInterval`). -/
def runPolls (st : GenerationState) (id : String)
    (responses : List (Except String StatusPayload))
    (fullResult : Except String Generation) : GenerationState × List PollEvent :=
  match responses with
  | [] => (st, [])
  | r :: rs =>
    match st.pollingInterval with
    | none => (st, [])
    | some _ =>
      let step := pollStatus st id r fullResult
      let rest := runPolls step.1 id rs fullResult
      (rest.1, step.2 ++ rest.2)

/-- A concrete in-progress generation record, used as evaluation input. -/
def genA : Generation :=
  { id := "a"
    user_id := "u1"
    original_prompt := "cat"
    enhanced_prompt := none
    negative_prompt := none
    status := GenStatus.processing
    provider := "dalle"
    model := "dall-e-3"
    style := some "vivid"
    size := "1024x1024"
    quality := "standard"
    image_url := none
    thumbnail_url := none
    error_message := none
    error_code := none
    started_at := none
    completed_at := none
    created_at := "t0"
    updated_at := "t0"
    duration_seconds := none }

/-- The concrete full record the server returns for `genA` once completed. -/
def genAFull : Generation :=
  { genA with
    status := GenStatus.completed
    image_url := some "https://x/i.png"
    thumbnail_url := some "https://x/t.png"
    completed_at := some "t9"
    duration_seconds := some 12 }

/-- A lightweight payload reporting a still-in-progress status. -/
def payloadGenerating : StatusPayload :=
  { generation_id := "a"
    status := GenStatus.generating
    message := none
    image_url := none
    thumbnail_url := none
    error := none }

/-- A lightweight payload reporting completion. -/
def payloadCompleted : StatusPayload :=
  { generation_id := "a"
    status := GenStatus.completed
    message := none
    image_url := some "https://x/i.png"
    thumbnail_url := none
    error := none }

/-- The store state while generation `a` is being tracked and polled. -/
def trackingA : GenerationState :=
  { currentGeneration := some genA
    isGenerating := true
    generationError := none
    enhancedPrompt := none
    isEnhancing := false
    pollingInterval := some 1 }

/-- `setCurrentGeneration` (`generationStore.ts` line 163). -/
def setCurrentGeneration (st : GenerationState) (g : Option Generation) :
    GenerationState :=
  { st with currentGeneration := g }

/-- A second record, tracked after switching the poller to id `b`. -/
def genB : Generation :=
  { genA with id := "b", status := GenStatus.pending }

/-- The store immediately after the app switched to generation `b`:
`currentGeneration` was set to `b`'s record and `startPolling "b"` ran. -/
def switchedToB : GenerationState :=
  (startPolling (setCurrentGeneration trackingA (some genB)) "b" 2).1

/-! ### Helper lemmas -/

theorem fetchCount_append (a b : List PollEvent) :
    fetchCount (a ++ b) = fetchCount a + fetchCount b := by
  simp [fetchCount, List.countP_append]

theorem counts_zero_pointwise (a : List PollEvent)
    (hf : fetchCount a = 0) (hs : stopCount a = 0) :
    ∀ e ∈ a, isFetch e = false ∧ isStop e = false := by
  intro e he
  refine ⟨?_, ?_⟩
  · have := List.countP_eq_zero.mp (by simpa [fetchCount] using hf) e he
    simpa using this
  · have := List.countP_eq_zero.mp (by simpa [stopCount] using hs) e he
    simpa using this

theorem stopPrecedesFetch_append (a b : List PollEvent)
    (h : ∀ e ∈ a, isFetch e = false ∧ isStop e = false) :
    stopPrecedesFetch (a ++ b) = stopPrecedesFetch b := by
  induction a with
  | nil => simp
  | cons e tl ih =>
    have he := h e (by simp)
    have htl : ∀ x ∈ tl, isFetch x = false ∧ isStop x = false := by
      intro x hx
      exact h x (by simp [hx])
    simp [stopPrecedesFetch, he.1, he.2]
    exact ih htl

theorem pollStatus_nonterminal_aux (st : GenerationState) (id : String)
    (r : Except String StatusPayload) (full : Except String Generation)
    (h : nonTerminalTick r = true) :
    (pollStatus st id r full).1.pollingInterval = st.pollingInterval ∧
    fetchCount (pollStatus st id r full).2 = 0 ∧
    stopCount (pollStatus st id r full).2 = 0 := by
  cases r with
  | error e =>
      simp [pollStatus, fetchCount, stopCount, List.countP_cons, isFetch, isStop]
  | ok p =>
      simp only [nonTerminalTick, Bool.and_eq_true, Bool.not_eq_true',
        beq_eq_false_iff_ne, ne_eq] at h
      have hcond : ¬(p.status = GenStatus.completed ∨ p.status = GenStatus.failed) := by
        rcases h with ⟨h1, h2⟩
        intro hor
        rcases hor with h3 | h3
        · exact h1 h3
        · exact h2 h3
      simp [pollStatus, hcond, fetchCount, stopCount, List.countP_cons, isFetch, isStop]

theorem pollStatus_completed_aux (st : GenerationState) (id : String)
    (p : StatusPayload) (full : Except String Generation) (t : Nat)
    (hc : p.status = GenStatus.completed)
    (ht : st.pollingInterval = some t) :
    fetchCount (pollStatus st id (Except.ok p) full).2 = 1 ∧
    stopPrecedesFetch (pollStatus st id (Except.ok p) full).2 = true := by
  cases full <;>
    simp [pollStatus, hc, stopPolling, ht, fetchCount, stopPrecedesFetch,
      isStop, isFetch, List.countP_cons, List.any]

theorem runPolls_cons_some (st : GenerationState) (id : String)
    (r : Except String StatusPayload) (rs : List (Except String StatusPayload))
    (full : Except String Generation) (t : Nat)
    (ht : st.pollingInterval = some t) :
    runPolls st id (r :: rs) full =
      ((runPolls (pollStatus st id r full).1 id rs full).1,
        (pollStatus st id r full).2 ++
          (runPolls (pollStatus st id r full).1 id rs full).2) := by
  simp [runPolls, ht]

theorem pollStatus_ok_currentGen (st : GenerationState) (id : String)
    (p : StatusPayload) (full : Except String Generation)
    (hnc : p.status ≠ GenStatus.completed) :
    (pollStatus st id (Except.ok p) full).1.currentGeneration
      = st.currentGeneration.map (fun g => mergeStatus g p) := by
  by_cases hf : p.status = GenStatus.failed
  · rcases hpi : st.pollingInterval with _ | t <;>
      by_cases herr : jsTruthy p.error <;>
        simp [pollStatus, hnc, hf, stopPolling, hpi, herr]
  · simp [pollStatus, hnc, hf]

theorem pollLoop_aux (id : String) (p : StatusPayload)
    (full : Except String Generation) (t : Nat)
    (hc : p.status = GenStatus.completed) :
    ∀ (rs : List (Except String StatusPayload)) (st : GenerationState),
      (∀ r ∈ rs, nonTerminalTick r = true) →
      st.pollingInterval = some t →
      fetchCount (runPolls st id (rs ++ [Except.ok p]) full).2 = 1 ∧
      stopPrecedesFetch (runPolls st id (rs ++ [Except.ok p]) full).2 = true := by
  intro rs
  induction rs with
  | nil =>
    intro st _ ht
    rw [List.nil_append, runPolls_cons_some st id (Except.ok p) [] full t ht]
    have h2 := pollStatus_completed_aux st id p full t hc ht
    simpa [runPolls] using h2
  | cons r tl ih =>
    intro st hrs ht
    have hr : nonTerminalTick r = true := hrs r (List.mem_cons_self r tl)
    have htl : ∀ x ∈ tl, nonTerminalTick x = true := by
      intro x hx
      exact hrs x (List.mem_cons_of_mem r hx)
    have haux := pollStatus_nonterminal_aux st id r full hr
    have hint : (pollStatus st id r full).1.pollingInterval = some t := by
      rw [haux.1, ht]
    have hih := ih (pollStatus st id r full).1 htl hint
    rw [List.cons_append, runPolls_cons_some st id r (tl ++ [Except.ok p]) full t ht]
    dsimp only
    constructor
    · rw [fetchCount_append, haux.2.1, hih.1]
    · rw [stopPrecedesFetch_append _ _ (counts_zero_pointwise _ haux.2.1 haux.2.2)]
      exact hih.2

/-- The merge contract of one non-completed poll tick: the payload's status is
taken, each optional field follows JavaScript `||` against the stored value,
and every remaining field of the stored record is preserved. -/
def mergeSpec (st' : GenerationState) (g : Generation) (p : StatusPayload) : Prop :=
  st'.currentGeneration = some (mergeStatus g p) ∧
  (mergeStatus g p).status = p.status ∧
  (jsTruthy p.image_url = true → (mergeStatus g p).image_url = p.image_url) ∧
  (jsTruthy p.image_url = false → (mergeStatus g p).image_url = g.image_url) ∧
  (jsTruthy p.thumbnail_url = true → (mergeStatus g p).thumbnail_url = p.thumbnail_url) ∧
  (jsTruthy p.thumbnail_url = false → (mergeStatus g p).thumbnail_url = g.thumbnail_url) ∧
  (jsTruthy p.error = true → (mergeStatus g p).error_message = p.error) ∧
  (jsTruthy p.error = false → (mergeStatus g p).error_message = g.error_message) ∧
  (mergeStatus g p).id = g.id ∧
  (mergeStatus g p).user_id = g.user_id ∧
  (mergeStatus g p).original_prompt = g.original_prompt ∧
  (mergeStatus g p).enhanced_prompt = g.enhanced_prompt ∧
  (mergeStatus g p).negative_prompt = g.negative_prompt ∧
  (mergeStatus g p).provider = g.provider ∧
  (mergeStatus g p).model = g.model ∧
  (mergeStatus g p).style = g.style ∧
  (mergeStatus g p).size = g.size ∧
  (mergeStatus g p).quality = g.quality ∧
  (mergeStatus g p).error_code = g.error_code ∧
  (mergeStatus g p).started_at = g.started_at ∧
  (mergeStatus g p).completed_at = g.completed_at ∧
  (mergeStatus g p).created_at = g.created_at ∧
  (mergeStatus g p).updated_at = g.updated_at ∧
  (mergeStatus g p).duration_seconds = g.duration_seconds

/-! ### Claim theorems for the generation store -/

/-- Claim C1, amended: for every sequence of poll ticks whose earlier ticks
are non-terminal (in-progress payloads or transport errors) and whose final
tick reports `completed`, the tracker issues exactly one full-record fetch
(`generateApi.getById`); the polling timer, however, is cancelled BEFORE that
fetch is issued, not after it completes — `pollStatus` calls `stopPolling()`
and only then awaits `getById`. -/
theorem pollLoop_completed_single_fetch_timer_first
    (st : GenerationState) (id : String)
    (rs : List (Except String StatusPayload)) (p : StatusPayload)
    (full : Except String Generation) (t : Nat)
    (hrs : ∀ r ∈ rs, nonTerminalTick r = true)
    (ht : st.pollingInterval = some t)
    (hc : p.status = GenStatus.completed) :
    fetchCount (runPolls st id (rs ++ [Except.ok p]) full).2 = 1 ∧
    stopPrecedesFetch (runPolls st id (rs ++ [Except.ok p]) full).2 = true :=
  pollLoop_aux id p full t hc rs st hrs ht

/-- Witness for C1's amended theorem at the concrete run
`generating` then `completed` with a successful full fetch. -/
theorem pollLoop_completed_single_fetch_timer_first_witness :
    (∀ r ∈ [Except.ok payloadGenerating], nonTerminalTick r = true) ∧
    trackingA.pollingInterval = some 1 ∧
    payloadCompleted.status = GenStatus.completed ∧
    (fetchCount (runPolls trackingA "a"
        ([Except.ok payloadGenerating] ++ [Except.ok payloadCompleted])
        (Except.ok genAFull)).2 = 1 ∧
      stopPrecedesFetch (runPolls trackingA "a"
        ([Except.ok payloadGenerating] ++ [Except.ok payloadCompleted])
        (Except.ok genAFull)).2 = true) :=
  ⟨by decide, rfl, rfl,
    pollLoop_completed_single_fetch_timer_first trackingA "a"
      [Except.ok payloadGenerating] payloadCompleted (Except.ok genAFull) 1
      (by decide) rfl rfl⟩

/-- Counterexample to claim C1 as stated.  The claim requires the timer to be
cancelled only after the full-record fetch completes — i.e. the cancellation
must NOT precede the fetch in the event trace.  On the concrete run
`generating` then `completed`, the code's trace cancels the timer strictly
before issuing `getById`, refuting the stated ordering. -/
theorem timer_cancel_precedes_full_fetch_cex :
    stopPrecedesFetch (runPolls trackingA "a"
      [Except.ok payloadGenerating, Except.ok payloadCompleted]
      (Except.ok genAFull)).2 = true ∧
    fetchCount (runPolls trackingA "a"
      [Except.ok payloadGenerating, Except.ok payloadCompleted]
      (Except.ok genAFull)).2 = 1 := by
  decide

/-- Claim C2, amended: `startPolling(idB)` while polling `idA` does cancel
`idA`'s timer and installs the new one, but a status request for `idA` that
was already in flight still applies its merge to the store when it resolves
after the switch — `pollStatus` carries no generation-id guard, so the stale
payload is merged into whatever record is currently stored. -/
theorem startPolling_switch_cancels_but_late_merge_applies
    (st : GenerationState) (idA idB : String) (newTimer t : Nat)
    (g : Generation) (p : StatusPayload) (full : Except String Generation)
    (ht : st.pollingInterval = some t)
    (hg : st.currentGeneration = some g)
    (hnc : p.status ≠ GenStatus.completed) :
    (startPolling st idB newTimer).2
      = [PollEvent.timerCancel, PollEvent.statusReq idB] ∧
    (startPolling st idB newTimer).1.pollingInterval = some newTimer ∧
    (pollStatus (startPolling st idB newTimer).1 idA (Except.ok p) full).1.currentGeneration
      = some (mergeStatus g p) := by
  have h1 : (startPolling st idB newTimer).1.currentGeneration = some g := by
    simp [startPolling, stopPolling, ht, hg]
  refine ⟨by simp [startPolling, stopPolling, ht],
    by simp [startPolling, stopPolling, ht], ?_⟩
  rw [pollStatus_ok_currentGen _ idA p full hnc, h1]
  rfl

/-- Witness for C2's amended theorem at the concrete switch from `a` to `b`. -/
theorem startPolling_switch_cancels_but_late_merge_applies_witness :
    trackingA.pollingInterval = some 1 ∧
    trackingA.currentGeneration = some genA ∧
    payloadGenerating.status ≠ GenStatus.completed ∧
    ((startPolling trackingA "b" 2).2
        = [PollEvent.timerCancel, PollEvent.statusReq "b"] ∧
      (startPolling trackingA "b" 2).1.pollingInterval = some 2 ∧
      (pollStatus (startPolling trackingA "b" 2).1 "a"
          (Except.ok payloadGenerating) (Except.error "late")).1.currentGeneration
        = some (mergeStatus genA payloadGenerating)) :=
  ⟨rfl, rfl, by decide,
    startPolling_switch_cancels_but_late_merge_applies trackingA "a" "b" 2 1
      genA payloadGenerating (Except.error "late") rfl rfl (by decide)⟩

/-- Counterexample to claim C2 as stated: after switching to `b` (store now
tracks `genB`, timer handle 2), a late status response for the old id `a`
still changes the store — it merges `a`'s payload into `b`'s record — whereas
the claim requires that no state update derived from an `idA` response is
applied after the switch. -/
theorem late_response_mutates_after_switch_cex :
    (pollStatus switchedToB "a" (Except.ok payloadGenerating)
        (Except.error "late")).1 ≠ switchedToB ∧
    (pollStatus switchedToB "a" (Except.ok payloadGenerating)
        (Except.error "late")).1.currentGeneration
      = some (mergeStatus genB payloadGenerating) := by
  decide

/-- Claim C6: a transport-level failure of the status request leaves the
entire store state unchanged, cancels nothing (no `timerCancel` event, the
interval handle is untouched), and is swallowed — the function returns
normally after logging, so nothing propagates to a caller. -/
theorem pollStatus_transport_error_preserves_state
    (st : GenerationState) (id e : String) (full : Except String Generation) :
    pollStatus st id (Except.error e) full
      = (st, [PollEvent.statusReq id, PollEvent.errorLogged]) ∧
    stopCount (pollStatus st id (Except.error e) full).2 = 0 :=
  ⟨rfl, rfl⟩

/-- Claim C8: on a poll tick with a tracked record and a non-`completed`
payload, `pollStatus` stores exactly the spread-merge of the payload into the
record: `status` is replaced, `image_url`/`thumbnail_url`/`error_message`
take the payload's value when the payload supplies one (a non-null,
non-empty string — JavaScript `||` treats null and `""` alike as absent) and
otherwise keep the stored value, and every other field is preserved.
(Completed ticks subsequently replace the record wholesale via `getById`.) -/
theorem pollStatus_merge_fields (st : GenerationState) (id : String)
    (p : StatusPayload) (full : Except String Generation) (g : Generation)
    (hg : st.currentGeneration = some g)
    (hnc : p.status ≠ GenStatus.completed) :
    mergeSpec (pollStatus st id (Except.ok p) full).1 g p := by
  unfold mergeSpec
  refine ⟨?_, rfl, ?_, ?_, ?_, ?_, ?_, ?_, rfl, rfl, rfl, rfl, rfl, rfl, rfl,
    rfl, rfl, rfl, rfl, rfl, rfl, rfl, rfl, rfl⟩
  · rw [pollStatus_ok_currentGen st id p full hnc, hg]
    rfl
  all_goals (intro h; simp [mergeStatus, jsOr, h])

/-- Witness for C8 at a concrete in-progress tick. -/
theorem pollStatus_merge_fields_witness :
    trackingA.currentGeneration = some genA ∧
    payloadGenerating.status ≠ GenStatus.completed ∧
    mergeSpec (pollStatus trackingA "a" (Except.ok payloadGenerating)
      (Except.error "x")).1 genA payloadGenerating :=
  ⟨rfl, by decide,
    pollStatus_merge_fields trackingA "a" payloadGenerating (Except.error "x")
      genA rfl (by decide)⟩

/-- Claim C9: `stopPolling` is idempotent — after one call the interval handle
is null, so a second call takes the no-timer branch, performs no event and
returns the state unchanged. -/
theorem stopPolling_idempotent (st : GenerationState) :
    (stopPolling (stopPolling st).1).1 = (stopPolling st).1 ∧
    (stopPolling (stopPolling st).1).2 = [] := by
  obtain ⟨cg, ig, ge, ep, ie, pi⟩ := st
  cases pi <;> simp [stopPolling]

/-- Claim C10: when nothing is tracked (`currentGeneration = null`) and the
fetched status is non-terminal, `pollStatus` leaves the store exactly as it
was — the merge maps null to null and never fabricates a record — so a status
response arriving after `clearCurrentGeneration` (which nulls the record)
cannot resurrect tracked state. -/
theorem pollStatus_untracked_nonterminal_noop
    (st st2 : GenerationState) (id : String) (p : StatusPayload)
    (full : Except String Generation)
    (hcg : st.currentGeneration = none)
    (h1 : p.status ≠ GenStatus.completed)
    (h2 : p.status ≠ GenStatus.failed) :
    pollStatus st id (Except.ok p) full
      = (st, [PollEvent.statusReq id, PollEvent.mergeSet]) ∧
    (clearCurrentGeneration st2).1.currentGeneration = none := by
  have hor : ¬(p.status = GenStatus.completed ∨ p.status = GenStatus.failed) := by
    intro hx
    exact hx.elim h1 h2
  constructor
  · have hmap : st.currentGeneration.map (fun g => mergeStatus g p)
        = st.currentGeneration := by
      rw [hcg]
      rfl
    simp [pollStatus, hor, hmap]
  · obtain ⟨cg2, ig2, ge2, ep2, ie2, pi2⟩ := st2
    cases pi2 <;> simp [clearCurrentGeneration, stopPolling]

/-- Witness for C10 at a concrete untracked state. -/
theorem pollStatus_untracked_nonterminal_noop_witness :
    ({ initialState with pollingInterval := some 7 } : GenerationState).currentGeneration = none ∧
    payloadGenerating.status ≠ GenStatus.completed ∧
    payloadGenerating.status ≠ GenStatus.failed ∧
    (pollStatus { initialState with pollingInterval := some 7 } "a"
        (Except.ok payloadGenerating) (Except.error "x")
      = ({ initialState with pollingInterval := some 7 },
          [PollEvent.statusReq "a", PollEvent.mergeSet]) ∧
      (clearCurrentGeneration trackingA).1.currentGeneration = none) :=
  ⟨rfl, by decide, by decide,
    pollStatus_untracked_nonterminal_noop
      { initialState with pollingInterval := some 7 } trackingA "a"
      payloadGenerating (Except.error "x") rfl (by decide) (by decide)⟩

/-! ### API client (`api/client.ts`): request interceptor, refresh queue -/

/-- An HTTP request as the interceptors see it: its URL, its Authorization
header if any, and the `_retry` marker the response interceptor sets before
retrying (field `retryMarked` models `_retry`). -/
structure RequestConfig where
  url : String
  authHeader : Option String
  retryMarked : Bool
deriving DecidableEq

/-- The string `Bearer <token>`. -/
def bearerHeader (token : String) : String :=
  "Bearer " ++ token

/-- The request interceptor (`client.ts` lines 56-74): read the access token
from secure storage and, when it is truthy, overwrite the Authorization
header with `Bearer <token>` — on every request, with no URL exception. -/
def requestInterceptor (storedAccess : Option String) (cfg : RequestConfig) :
    RequestConfig :=
  if jsTruthy storedAccess then
    { cfg with authHeader := storedAccess.map bearerHeader }
  else cfg

/-- API endpoint constants (`constants/api.ts` with `API_VERSION = 'v1'`). -/
def AUTH_LOGIN : String := "/api/v1/auth/login"

def AUTH_REGISTER : String := "/api/v1/auth/register"

def AUTH_REFRESH : String := "/api/v1/auth/refresh"

def GALLERY : String := "/api/v1/gallery"

/-- The refresh request the response interceptor issues directly through raw
axios (`client.ts` lines 144-147), deliberately bypassing `apiClient` and its
interceptors: it carries no Authorization header. -/
def rawRefreshRequest : RequestConfig :=
  { url := AUTH_REFRESH, authHeader := none, retryMarked := false }

/-- `sub.isPrefixOf`-based substring test over character lists. -/
def listHasInfix (sub : List Char) : List Char → Bool
  | [] => sub.isEmpty
  | c :: t => sub.isPrefixOf (c :: t) || listHasInfix sub t

/-- JavaScript `url.includes(sub)`. -/
def urlIncludes (url sub : String) : Bool :=
  listHasInfix sub.toList url.toList

/-- Module-level mutable state of the client (`client.ts` lines 77-78) plus
the secure token storage and the logout side effect it drives. -/
structure ClientState where
  isRefreshing : Bool
  refreshSubscribers : List RequestConfig
  storedAccess : Option String
  storedRefresh : Option String
  loggedOut : Bool
deriving DecidableEq

/-- How the promise returned to the caller whose request got the 401 settles. -/
inductive CallerOutcome
  | rejected (reason : String)
  | retried (cfg : RequestConfig)
  | queuedPending
deriving DecidableEq

/-- How a previously queued caller's promise fares once the in-flight refresh
settles.  Its executor only ever calls `resolve` from the subscriber
callback (`client.ts` lines 126-131); if the callback is discarded the
promise can never settle. -/
inductive QueuedResult
  | retriedWith (cfg : RequestConfig)
  | neverSettled
deriving DecidableEq

/-- Side effects of the 401 branch, in program order. -/
inductive ApiEvent
  | refreshReq (refreshToken : String)
  | tokensStored (access refresh : String)
  | tokensCleared
  | logoutCalled
  | retryReq (cfg : RequestConfig)
deriving DecidableEq

/-- `subscribeTokenRefresh` together with the queued promise executor
(`client.ts` lines 124-132): register a callback; the caller's promise stays
pending until the callback fires. -/
def queueRequest (st : ClientState) (cfg : RequestConfig) :
    ClientState × CallerOutcome :=
  ({ st with refreshSubscribers := st.refreshSubscribers ++ [cfg] },
    CallerOutcome.queuedPending)

/-- `onTokenRefreshed` (`client.ts` lines 84-87): invoke every queued callback
with the new token — each queued request is re-issued with the fresh bearer
header — then empty the list. -/
def onTokenRefreshed (st : ClientState) (token : String) :
    ClientState × List QueuedResult :=
  ({ st with refreshSubscribers := [] },
    st.refreshSubscribers.map
      (fun c => QueuedResult.retriedWith
        { c with authHeader := some (bearerHeader token) }))

/-- `onRefreshFailed` (`client.ts` lines 89-91): empty the subscriber list
WITHOUT invoking (or rejecting) any queued callback — every queued promise is
left forever pending. -/
def onRefreshFailed (st : ClientState) : ClientState × List QueuedResult :=
  ({ st with refreshSubscribers := [] },
    st.refreshSubscribers.map (fun _ => QueuedResult.neverSettled))

/-- The `catch (refreshError)` branch (`client.ts` lines 157-166): drop the
refresh flag, drop the subscribers, clear both stored tokens, trigger the
logout side effect, and reject the triggering caller with the refresh
error. -/
def refreshFailurePath (st : ClientState) (e : String) :
    ClientState × CallerOutcome × List QueuedResult × List ApiEvent :=
  let st1 := { st with isRefreshing := false }
  let dropped := onRefreshFailed st1
  let st3 := { dropped.1 with
    storedAccess := none
    storedRefresh := none
    loggedOut := true }
  (st3, CallerOutcome.rejected e, dropped.2,
    [ApiEvent.tokensCleared, ApiEvent.logoutCalled])

/-- The 401 branch of the response interceptor (`client.ts` lines 114-167).
`refreshResult` is the outcome of the raw `axios.post` to `/auth/refresh`,
when that call is reached. -/
def respond401 (st : ClientState) (cfg : RequestConfig)
    (refreshResult : Except String (String × String)) :
    ClientState × CallerOutcome × List QueuedResult × List ApiEvent :=
  if cfg.retryMarked then
    (st, CallerOutcome.rejected "401", [], [])
  else if urlIncludes cfg.url "/auth/login" || urlIncludes cfg.url "/auth/register" then
    (st, CallerOutcome.rejected "401", [], [])
  else if st.isRefreshing then
    let queued := queueRequest st cfg
    (queued.1, queued.2, [], [])
  else
    let cfg1 : RequestConfig := { cfg with retryMarked := true }
    let st1 : ClientState := { st with isRefreshing := true }
    match st1.storedRefresh with
    | none =>
      -- `throw new Error('No refresh token')` inside the try → caught below
      refreshFailurePath st1 "No refresh token"
    | some rt =>
      if rt = "" then
        refreshFailurePath st1 "No refresh token"
      else
        match refreshResult with
        | Except.ok (newAccess, newRefresh) =>
          let st2 := { st1 with
            storedAccess := some newAccess
            storedRefresh := some newRefresh }
          let notified := onTokenRefreshed st2 newAccess
          let st4 := { notified.1 with isRefreshing := false }
          let cfg2 := { cfg1 with authHeader := some (bearerHeader newAccess) }
          (st4, CallerOutcome.retried cfg2, notified.2,
            [ApiEvent.refreshReq rt,
              ApiEvent.tokensStored newAccess newRefresh,
              ApiEvent.retryReq cfg2])
        | Except.error e =>
          let failed := refreshFailurePath st1 e
          (failed.1, failed.2.1, failed.2.2.1,
            ApiEvent.refreshReq rt :: failed.2.2.2)

/-! ### Timeouts (`constants/api.ts`, `api/generate.ts`, `generationStore.ts`) -/

/-- `TIMEOUTS.DEFAULT` (ms). -/
def TIMEOUT_DEFAULT : Nat := 30000

/-- `TIMEOUTS.GENERATION` (ms). -/
def TIMEOUT_GENERATION : Nat := 120000

/-- A request as issued by `generateApi`: URL and effective timeout. -/
structure HttpCall where
  url : String
  timeout : Nat
deriving DecidableEq

/-- `generateApi.create(data, sync)` (`generate.ts`): posts to
`/generate` with `?sync=true` appended when `sync`, and overrides the
timeout to `TIMEOUTS.GENERATION` only when `sync`. -/
def createCall (sync : Bool) : HttpCall :=
  { url := "/api/v1/generate" ++ (if sync then "?sync=true" else "")
    timeout := if sync then TIMEOUT_GENERATION else TIMEOUT_DEFAULT }

/-- The submission the tracker actually issues: `generate` calls
`generateApi.create(request, false)` (`generationStore.ts` line 55). -/
def trackerSubmitCall : HttpCall :=
  createCall false

/-- `generateApi.getStatus(id)` passes no timeout override, so the client
default applies (`apiClient` is created with `timeout: TIMEOUTS.DEFAULT`). -/
def statusCall (id : String) : HttpCall :=
  { url := "/api/v1/generate/" ++ id ++ "/status", timeout := TIMEOUT_DEFAULT }

/-! ### Concrete API-client inputs -/

/-- A gallery request carrying the stale bearer token. -/
def cfgGallery : RequestConfig :=
  { url := GALLERY, authHeader := some (bearerHeader "oldAccess"), retryMarked := false }

/-- A second gallery request that arrives while a refresh is in flight. -/
def queuedGalleryReq : RequestConfig :=
  { url := "/api/v1/gallery?page=2", authHeader := some (bearerHeader "oldAccess")
    retryMarked := false }

/-- Client state before any 401: no refresh in flight, both tokens stored. -/
def stIdle : ClientState :=
  { isRefreshing := false, refreshSubscribers := [], storedAccess := some "oldAccess"
    storedRefresh := some "rt0", loggedOut := false }

/-- Client state while the triggering request's refresh is in flight. -/
def stInFlight : ClientState :=
  { stIdle with isRefreshing := true }

/-- A login request, with an access token still sitting in secure storage. -/
def cfgLogin : RequestConfig :=
  { url := AUTH_LOGIN, authHeader := none, retryMarked := false }

/-! ### Claim theorems for the API client -/

/-- Claim C4: a first 401 on a non-login/register request while a valid
(non-empty) refresh token is stored and no refresh is in flight: the client
calls the refresh endpoint with that token, stores the returned token pair,
retries the original request marked `_retry` with the fresh bearer header,
replays every request queued on this refresh with the same fresh header, and
the caller's promise settles with the retried request's result — never with
the 401 rejection. -/
theorem refresh_retry_success (st : ClientState) (cfg : RequestConfig)
    (rt newAccess newRefresh : String)
    (hmark : cfg.retryMarked = false)
    (hlogin : urlIncludes cfg.url "/auth/login" = false)
    (hreg : urlIncludes cfg.url "/auth/register" = false)
    (hnr : st.isRefreshing = false)
    (hrt : st.storedRefresh = some rt)
    (hne : rt ≠ "") :
    respond401 st cfg (Except.ok (newAccess, newRefresh)) =
      ({ st with
          isRefreshing := false
          refreshSubscribers := []
          storedAccess := some newAccess
          storedRefresh := some newRefresh },
        CallerOutcome.retried
          { cfg with retryMarked := true, authHeader := some (bearerHeader newAccess) },
        st.refreshSubscribers.map
          (fun c => QueuedResult.retriedWith
            { c with authHeader := some (bearerHeader newAccess) }),
        [ApiEvent.refreshReq rt,
          ApiEvent.tokensStored newAccess newRefresh,
          ApiEvent.retryReq
            { cfg with retryMarked := true, authHeader := some (bearerHeader newAccess) }]) ∧
    (∀ r, (respond401 st cfg (Except.ok (newAccess, newRefresh))).2.1
        ≠ CallerOutcome.rejected r) := by
  obtain ⟨ir, subs, sa, sr, lo⟩ := st
  obtain ⟨u, ah, rm⟩ := cfg
  dsimp only at hmark hlogin hreg hnr hrt
  subst hmark hnr hrt
  constructor
  · simp [respond401, onTokenRefreshed, hlogin, hreg, hne]
  · intro r
    simp [respond401, onTokenRefreshed, hlogin, hreg, hne]

/-- Witness for C4 at the spec's own scenario: 401 on `GET /gallery` with a
valid refresh token stored; the refresh returns a fresh pair. -/
theorem refresh_retry_success_witness :
    cfgGallery.retryMarked = false ∧
    urlIncludes cfgGallery.url "/auth/login" = false ∧
    urlIncludes cfgGallery.url "/auth/register" = false ∧
    stIdle.isRefreshing = false ∧
    stIdle.storedRefresh = some "rt0" ∧
    "rt0" ≠ "" ∧
    (respond401 stIdle cfgGallery (Except.ok ("newA", "newR")) =
      ({ stIdle with
          isRefreshing := false
          refreshSubscribers := []
          storedAccess := some "newA"
          storedRefresh := some "newR" },
        CallerOutcome.retried
          { cfgGallery with retryMarked := true, authHeader := some (bearerHeader "newA") },
        stIdle.refreshSubscribers.map
          (fun c => QueuedResult.retriedWith
            { c with authHeader := some (bearerHeader "newA") }),
        [ApiEvent.refreshReq "rt0",
          ApiEvent.tokensStored "newA" "newR",
          ApiEvent.retryReq
            { cfgGallery with retryMarked := true, authHeader := some (bearerHeader "newA") }]) ∧
      (∀ r, (respond401 stIdle cfgGallery (Except.ok ("newA", "newR"))).2.1
          ≠ CallerOutcome.rejected r)) :=
  ⟨rfl, by decide, by decide, rfl, rfl, by decide,
    refresh_retry_success stIdle cfgGallery "rt0" "newA" "newR"
      rfl (by decide) (by decide) rfl rfl (by decide)⟩

/-- Claim C3's failing input, evaluated on the code.  A second gallery request
hits the 401 branch while a refresh is in flight and is queued with outcome
`queuedPending`; the in-flight refresh then fails.  The catch branch does
clear both tokens, trigger the logout side effect, and reject the TRIGGERING
caller — but `onRefreshFailed` merely empties the subscriber list without
invoking or rejecting the queued callback, so the queued caller's promise
never settles (`neverSettled`), contradicting the claimed rejection. -/
theorem refresh_failure_leaves_queued_pending :
    (respond401 stInFlight queuedGalleryReq (Except.error "unused")).2.1
      = CallerOutcome.queuedPending ∧
    (respond401 stInFlight queuedGalleryReq (Except.error "unused")).1.refreshSubscribers
      = [queuedGalleryReq] ∧
    (refreshFailurePath
      (respond401 stInFlight queuedGalleryReq (Except.error "unused")).1
      "Request failed with status code 401").1.storedAccess = none ∧
    (refreshFailurePath
      (respond401 stInFlight queuedGalleryReq (Except.error "unused")).1
      "Request failed with status code 401").1.storedRefresh = none ∧
    (refreshFailurePath
      (respond401 stInFlight queuedGalleryReq (Except.error "unused")).1
      "Request failed with status code 401").1.loggedOut = true ∧
    (refreshFailurePath
      (respond401 stInFlight queuedGalleryReq (Except.error "unused")).1
      "Request failed with status code 401").2.1
      = CallerOutcome.rejected "Request failed with status code 401" ∧
    (refreshFailurePath
      (respond401 stInFlight queuedGalleryReq (Except.error "unused")).1
      "Request failed with status code 401").2.2.1
      = [QueuedResult.neverSettled] := by
  decide

/-- Counterexample to claim C5 as stated: the request interceptor attaches
the bearer header unconditionally, so a login request issued while an access
token is still in secure storage DOES carry `Authorization: Bearer <token>`,
contradicting the claimed login/register/refresh exemption. -/
theorem auth_header_on_login_cex :
    (requestInterceptor (some "tok") cfgLogin).url = AUTH_LOGIN ∧
    (requestInterceptor (some "tok") cfgLogin).authHeader = some "Bearer tok" := by
  decide

/-- Claim C5, amended: every request issued through `apiClient` — login,
register and refresh included — carries `Authorization: Bearer <token>`
whenever a truthy (non-empty) access token is in secure storage, and is left
untouched otherwise; the only refresh request without the header is the one
the response interceptor issues through raw axios, which bypasses the
interceptor. -/
theorem request_interceptor_header_amended (token : String) (cfg : RequestConfig) :
    (requestInterceptor (some token) cfg).authHeader
      = (if token = "" then cfg.authHeader else some (bearerHeader token)) ∧
    requestInterceptor none cfg = cfg ∧
    rawRefreshRequest.authHeader = none := by
  refine ⟨?_, ?_, rfl⟩
  · by_cases h : token = "" <;> simp [requestInterceptor, jsTruthy, h]
  · simp [requestInterceptor, jsTruthy]

/-- Counterexample to claim C7 as stated: the submission the tracker issues
(`create(request, false)`) uses the DEFAULT 30000 ms timeout, not the
120000 ms generation timeout; moreover the `sync` flag changes the request
URL as well, not only the timeout. -/
theorem create_timeout_cex :
    trackerSubmitCall.timeout = 30000 ∧
    trackerSubmitCall.timeout ≠ TIMEOUT_GENERATION ∧
    (createCall true).url ≠ (createCall false).url := by
  decide

/-- Claim C7, amended: `generateApi.create` uses the 120000 ms generation
timeout only when called with `sync = true` and the 30000 ms default
otherwise; the tracker's `generate` calls `create(request, false)`, so its
submissions use the default timeout — the same as status polling — and the
`sync` flag changes both the timeout and the URL (`?sync=true`). -/
theorem create_timeout_amended :
    (createCall true).timeout = TIMEOUT_GENERATION ∧
    (createCall false).timeout = TIMEOUT_DEFAULT ∧
    trackerSubmitCall = createCall false ∧
    trackerSubmitCall.timeout = TIMEOUT_DEFAULT ∧
    (∀ id, (statusCall id).timeout = TIMEOUT_DEFAULT) ∧
    (createCall true).url = "/api/v1/generate?sync=true" ∧
    (createCall false).url = "/api/v1/generate" := by
  refine ⟨rfl, rfl, rfl, rfl, fun _ => rfl, by decide, by decide⟩

end DreamCanvas
